import Mathlib

/-!
Verification of the RFID-Manager protocol engine (SM-6210 driver, serial
framing, and tag aggregator) against its natural-language specification.

The definitions below are a shallow embedding of the C++ sources:

  * `src/lib/RFID/devices/SM_6210.cpp` — frame construction (`Checksum`,
    `scan`, `readEpc`/`readTid`/`readRfu`/`readUsr`, `writeData`,
    `writeEpc`/`writeRfu`/`writeUserData`, `eraseTag`), buffer ingress
    (`onDataReceived`) and the packet decoders (`readAckPacket`,
    `readInformationPacket`, `readStdResult`, `readStdResponse`,
    `readUsrPacket`);
  * the tag aggregator `RFID` class (`onEpcFound`/`onTidFound`/`onUsrFound`/
    `onRfuFound`, `updateTagList`, `updateTagData`, `resetCurrentTag`,
    `clearHistory`) together with the record type `RFID_Tag` from
    `RFID_Global.h`;
  * constants from `RFID_Global.h`.

Bytes are modelled as `Nat` values in `[0, 256)`; machine arithmetic is
made explicit with `% 256`, and C++ `char` sign extension with
`signExtend`.  `QByteArray` buffers are `List Nat`.  Qt's guarantee that a
`QByteArray` is NUL-terminated is reflected by reading out-of-range
indices as `0` (`byteAt`).
-/

namespace RFIDM

/-! ### Constants (`RFID_Global.h` and `SM_6210.cpp`) -/

def RFID_RFU_LENGTH : Nat := 8
def RFID_EPC_LENGTH : Nat := 12
def RFID_TID_LENGTH : Nat := 12
def RFID_USER_LENGTH : Nat := 64
def RFID_NUM_USER_DATAGRAMS : Nat := 4
def RFID_CURRENT_TAG_TIMEOUT : Nat := 1000
def RFID_MAX_BUFFER_SIZE : Nat := 1024 * 16

def HEADER_START_CODE : Nat := 0xa0
def HEADER_RESULT_CODE : Nat := 0xe4
def HEADER_RESPONSE_CODE : Nat := 0xe0
def COMM_RS232 : Nat := 0x03
def DEV_STOP_SEARCH : Nat := 0xa8
def DEV_WRITE_TAG_MW : Nat := 0xab
def DEV_GET_SINGLE_PARAM : Nat := 0x61
def DEV_READ_SINGLE_TAG : Nat := 0x82
def DEV_READ_TAG_DATA : Nat := 0x80
def CRP_ADD_USERCODE : Nat := 0x64

def RFU_LABEL : Nat × Nat := (0x00, 0x00)
def EPC_LABEL : Nat × Nat := (0x00, 0x01)
def TID_LABEL : Nat × Nat := (0x00, 0x02)
def USR_LABEL : Nat × Nat := (0x00, 0x03)

/-! ### Byte helpers -/

/-- Running byte sum as a `quint8` accumulator: `checksum += data.at(i)`
wraps modulo 256 at every step. -/
def sumMod (l : List Nat) : Nat := l.foldl (fun a b => (a + b) % 256) 0

/-- Model of `Checksum` from `SM_6210.cpp`: sum the bytes into a `quint8` and return
`(~checksum) + 1`, the two's-complement negation modulo 256. -/
def Checksum (data : List Nat) : Nat := (256 - sumMod data) % 256

/-- Sign extension of a raw byte, as C++ `static_cast<int>(char byte)`. -/
def signExtend (b : Nat) : Int := if b < 128 then (b : Int) else (b : Int) - 256

/-- Read a byte of a `QByteArray` at an index; reading the terminating
position yields the NUL byte. -/
def byteAt (buf : List Nat) (i : Nat) : Nat := (buf[i]?).getD 0

/-- Model of `QByteArray::mid(pos, len)`: `len` bytes starting at `pos`, clamped to
the array. -/
def qtMid (l : List Nat) (pos n : Nat) : List Nat := (l.drop pos).take n

theorem sumMod_eq_sum_mod (l : List Nat) : sumMod l = l.sum % 256 := by
  suffices h : ∀ a : Nat, l.foldl (fun a b => (a + b) % 256) (a % 256) = (a + l.sum) % 256 by
    simpa [sumMod] using h 0
  induction l with
  | nil => intro a; simp [List.foldl]
  | cons x xs ih =>
    intro a
    simp only [List.foldl, List.sum_cons]
    rw [Nat.mod_add_mod, ih (a + x)]
    ring_nf

theorem sum_append_checksum (core : List Nat) :
    (core ++ [Checksum core]).sum % 256 = 0 := by
  have hs : sumMod core = core.sum % 256 := sumMod_eq_sum_mod core
  have hb : core.sum % 256 < 256 := Nat.mod_lt _ (by norm_num)
  simp only [List.sum_append, List.sum_cons, List.sum_nil, Checksum, hs]
  omega

/-! ### Frame construction (`SM_6210.cpp`)

Each builder constructs the byte list exactly as the C++ appends bytes,
then appends `Checksum` of the bytes so far. -/

/-- Stop/reset frame from `SM_6210::scan` (no current tag, `shitCount > 10`). -/
def stopFrame : List Nat :=
  let core := [HEADER_START_CODE, COMM_RS232, DEV_STOP_SEARCH, 0x00]
  core ++ [Checksum core]

/-- Model of `GET_SINGLE_PARAM(ADD_USERCODE)` request from `SM_6210::scan`. -/
def getSingleParamFrame : List Nat :=
  let core := [HEADER_START_CODE, 0x05, DEV_GET_SINGLE_PARAM, 0x00, 0x00, CRP_ADD_USERCODE]
  core ++ [Checksum core]

/-- Acknowledgement response transmitted by `SM_6210::readAckPacket`. -/
def ackSingleFrame : List Nat :=
  let core := [HEADER_START_CODE, COMM_RS232, DEV_READ_SINGLE_TAG, 0x00]
  core ++ [Checksum core]

/-- Generic bank-read request: header, `0x06`, `DEV_READ_TAG_DATA`, label,
start address, word count, checksum (`readEpc`/`readTid`/`readRfu`/`readUsr`). -/
def readBankFrame (label : Nat × Nat) (startAddress dataLength : Nat) : List Nat :=
  let core := [HEADER_START_CODE, 0x06, DEV_READ_TAG_DATA, label.1, label.2,
               startAddress, dataLength]
  core ++ [Checksum core]

def readEpcFrame : List Nat := readBankFrame EPC_LABEL 2 6
def readTidFrame : List Nat := readBankFrame TID_LABEL 0 6
def readRfuFrame : List Nat := readBankFrame RFU_LABEL 0 4

/-- Model of `SM_6210::readUsr` resets the cursor past 24 and requests 8 words from
the current cursor. Returns (frame, next cursor value). -/
def readUsrFrame (userStartAddress : Nat) : List Nat × Nat :=
  let a := if userStartAddress > 24 then 0 else userStartAddress
  (readBankFrame USR_LABEL a 8, a + 8)

/-- Bank-write frame from `SM_6210::writeData`: the packet is built as
`[header, opcode, label, start, length] ++ data`, then the total length is
inserted at index 1 (a byte, so modulo 256), then the checksum is appended. -/
def writeDataFrame (data : List Nat) (label : Nat × Nat)
    (startAddress length : Nat) : List Nat :=
  let core := HEADER_START_CODE :: ((6 + data.length) % 256) ::
    DEV_WRITE_TAG_MW :: label.1 :: label.2 :: startAddress :: length :: data
  core ++ [Checksum core]

/-! ### Claim C1: every transmitted frame byte-sums to 0 modulo 256 -/

/-- C1 — For every request frame the driver builds and transmits (stop
frame, `GET_SINGLE_PARAM` request, ack-single response, every bank read and
every bank write frame), the unsigned byte sum of the complete frame,
final checksum byte included, is congruent to 0 modulo 256; the checksum
byte is the two's-complement negation of the byte sum of the preceding
bytes. -/
theorem frames_sum_to_zero_mod256 :
    stopFrame.sum % 256 = 0 ∧
    getSingleParamFrame.sum % 256 = 0 ∧
    ackSingleFrame.sum % 256 = 0 ∧
    (∀ label startAddress dataLength,
      (readBankFrame label startAddress dataLength).sum % 256 = 0) ∧
    (∀ a, (readUsrFrame a).1.sum % 256 = 0) ∧
    (∀ data label startAddress length,
      (writeDataFrame data label startAddress length).sum % 256 = 0) ∧
    (∀ core : List Nat, Checksum core = (256 - core.sum % 256) % 256) := by
  refine ⟨sum_append_checksum _, sum_append_checksum _, sum_append_checksum _,
    fun _ _ _ => sum_append_checksum _,
    fun a => sum_append_checksum _,
    fun _ _ _ _ => sum_append_checksum _,
    fun core => ?_⟩
  simp [Checksum, sumMod_eq_sum_mod]

/-! ### Write operations (`SM_6210.cpp`)

The serial manager is abstracted as an oracle giving, for each successive
`RFID_SerialManager::writeData` call, the (signed) byte count the kernel
accepted.  Each operation returns the boolean result together with the
list of frames submitted to the transport, in order. -/

/-- Model of `SM_6210::writeData`: build the packet, submit it 10 times, and AND
together `writeData(packet) == packet.length()` over the 10 submissions. -/
def writeData (data : List Nat) (label : Nat × Nat) (startAddress length : Nat)
    (oracle : Nat → Int) : Bool × List (List Nat) :=
  let packet := writeDataFrame data label startAddress length
  ((List.range 10).all fun i => oracle i == (packet.length : Int),
   List.replicate 10 packet)

/-- Model of `SM_6210::writeEpc`: requires a current tag, then delegates to
`writeData(epc, EPC_LABEL, 2, 6)`. -/
def writeEpc (hasCurrentTag : Bool) (epc : List Nat) (oracle : Nat → Int) :
    Bool × List (List Nat) :=
  if hasCurrentTag then writeData epc EPC_LABEL 2 6 oracle else (false, [])

/-- Model of `SM_6210::writeRfu`: requires a current tag, then delegates to
`writeData(rfu, RFU_LABEL, 0, 4)`. -/
def writeRfu (hasCurrentTag : Bool) (rfu : List Nat) (oracle : Nat → Int) :
    Bool × List (List Nat) :=
  if hasCurrentTag then writeData rfu RFU_LABEL 0 4 oracle else (false, [])

/-- Model of `SM_6210::writeUserData`: requires a current tag, then issues four
`writeData` calls at word offsets 0, 8, 16, 24 with payload slices
`mid(0,16)`, `mid(16,32)`, `mid(32,48)`, `mid(48,64)` (the second argument
of `QByteArray::mid` is a byte count) and ANDs the four results. -/
def writeUserData (hasCurrentTag : Bool) (userData : List Nat)
    (oracle : Nat → Int) : Bool × List (List Nat) :=
  if hasCurrentTag then
    let w1 := writeData (qtMid userData 0 16) USR_LABEL 0 8 oracle
    let w2 := writeData (qtMid userData 16 32) USR_LABEL 8 8 (fun i => oracle (10 + i))
    let w3 := writeData (qtMid userData 32 48) USR_LABEL 16 8 (fun i => oracle (20 + i))
    let w4 := writeData (qtMid userData 48 64) USR_LABEL 24 8 (fun i => oracle (30 + i))
    (w1.1 && w2.1 && w3.1 && w4.1, w1.2 ++ w2.2 ++ w3.2 ++ w4.2)
  else (false, [])

/-- The payload slice of a bank-write frame: everything after the 7 header
bytes, with the final checksum byte removed. -/
def payloadOfWriteFrame (frame : List Nat) : List Nat := (frame.drop 7).dropLast

theorem payloadOfWriteFrame_writeDataFrame (data : List Nat) (label : Nat × Nat)
    (s c : Nat) : payloadOfWriteFrame (writeDataFrame data label s c) = data := by
  simp [payloadOfWriteFrame, writeDataFrame, List.dropLast_append_of_ne_nil]

/-! ### Claim C5: every write submits its frame exactly 10 times -/

/-- C5 — `writeData` submits the encoded frame to the transport exactly 10
times in succession, and returns success iff every one of the 10
submissions placed the complete frame on the wire (accepted byte count
equal to the frame length); `writeEpc` and `writeRfu` (with a current tag)
are exactly such a `writeData` call, and `writeUserData` submits each of
its four frames 10 times. -/
theorem writes_repeat_ten_times :
    (∀ data label startAddress length oracle,
      (writeData data label startAddress length oracle).2
        = List.replicate 10 (writeDataFrame data label startAddress length) ∧
      ((writeData data label startAddress length oracle).1 = true ↔
        ∀ i < 10, oracle i = ((writeDataFrame data label startAddress length).length : Int))) ∧
    (∀ epc oracle, writeEpc true epc oracle = writeData epc EPC_LABEL 2 6 oracle) ∧
    (∀ rfu oracle, writeRfu true rfu oracle = writeData rfu RFU_LABEL 0 4 oracle) ∧
    (∀ userData oracle,
      (writeUserData true userData oracle).2
        = List.replicate 10 (writeDataFrame (qtMid userData 0 16) USR_LABEL 0 8)
          ++ List.replicate 10 (writeDataFrame (qtMid userData 16 32) USR_LABEL 8 8)
          ++ List.replicate 10 (writeDataFrame (qtMid userData 32 48) USR_LABEL 16 8)
          ++ List.replicate 10 (writeDataFrame (qtMid userData 48 64) USR_LABEL 24 8)) := by
  refine ⟨fun data label s c oracle => ⟨rfl, ?_⟩, fun _ _ => rfl, fun _ _ => rfl,
    fun _ _ => rfl⟩
  simp only [writeData, List.all_eq_true, List.mem_range, beq_iff_eq]

/-- Witness for C5 at a concrete payload and a transport accepting 9 bytes
per call. -/
theorem writes_repeat_ten_times_witness :
    (writeData [0x01] EPC_LABEL 2 6 (fun _ => 9)).2
      = List.replicate 10 (writeDataFrame [0x01] EPC_LABEL 2 6) ∧
    ((writeData [0x01] EPC_LABEL 2 6 (fun _ => 9)).1 = true ↔
      ∀ i < 10, (fun _ => (9 : Int)) i
        = ((writeDataFrame [0x01] EPC_LABEL 2 6).length : Int)) :=
  writes_repeat_ten_times.1 [0x01] EPC_LABEL 2 6 (fun _ => 9)

/-! ### Claim C10: writes without a current tag fail and transmit nothing -/

/-- C10 — with no current tag, `writeEpc`, `writeRfu` and `writeUserData`
each return `false` and submit nothing to the transport. -/
theorem writes_require_current_tag :
    (∀ epc oracle, writeEpc false epc oracle = (false, [])) ∧
    (∀ rfu oracle, writeRfu false rfu oracle = (false, [])) ∧
    (∀ userData oracle, writeUserData false userData oracle = (false, [])) :=
  ⟨fun _ _ => rfl, fun _ _ => rfl, fun _ _ => rfl⟩

/-! ### Claim C3: no zero-padding of short write payloads in the write path -/

/-- C3, counterexample — calling the driver's `writeEpc` with the 2-byte
payload `[0x01, 0x02]` transmits 10 frames whose payload is exactly those
2 bytes, not the 12-byte zero-padded payload the claim requires. -/
theorem writeEpc_does_not_pad_counterexample :
    (writeEpc true [0x01, 0x02] (fun _ => 10)).2
      = List.replicate 10 (writeDataFrame [0x01, 0x02] EPC_LABEL 2 6) ∧
    payloadOfWriteFrame (writeDataFrame [0x01, 0x02] EPC_LABEL 2 6) = [0x01, 0x02] ∧
    ([0x01, 0x02] : List Nat) ≠ [0x01, 0x02, 0, 0, 0, 0, 0, 0, 0, 0, 0, 0] := by
  refine ⟨rfl, payloadOfWriteFrame_writeDataFrame .., by decide⟩

/-- C3, amended — the write path does not zero-pad: `writeEpc` (with a
current tag) transmits the payload bytes exactly as given, so every one of
its 10 frames carries the caller's payload unmodified; in particular
`writeEpc([0x01, 0x02])` results in 10 transmitted frames each carrying
the 2-byte payload `01 02`. -/
theorem writeEpc_transmits_payload_unpadded :
    (∀ (epc : List Nat) (oracle : Nat → Int),
      (writeEpc true epc oracle).2
        = List.replicate 10 (writeDataFrame epc EPC_LABEL 2 6) ∧
      payloadOfWriteFrame (writeDataFrame epc EPC_LABEL 2 6) = epc) ∧
    (writeEpc true [0x01, 0x02] (fun _ => 10)).2.map payloadOfWriteFrame
      = List.replicate 10 [0x01, 0x02] := by
  refine ⟨fun epc oracle => ⟨rfl, payloadOfWriteFrame_writeDataFrame ..⟩, ?_⟩
  simp only [writeEpc, if_pos trivial, writeData, List.map_replicate,
    payloadOfWriteFrame_writeDataFrame]

/-! ### Claim C4: the `writeUserData` payload segmentation -/

/-- C4 — evaluating `writeUserData` on the 64-byte payload `0x00 … 0x3F`:
the four USR writes are anchored at word offsets 0, 8, 16, 24 as claimed,
but because `QByteArray::mid` takes a byte *count* as second argument, the
payload slices are bytes 0–15, 16–47, 32–63 and 48–63 (widths 16, 32, 32,
16) instead of the four consecutive 16-byte segments. -/
theorem writeUserData_segments_bug :
    ((writeUserData true (List.range 64) (fun _ => 0)).2.map payloadOfWriteFrame
      = List.replicate 10 ((List.range 64).take 16)
        ++ List.replicate 10 (((List.range 64).drop 16).take 32)
        ++ List.replicate 10 (((List.range 64).drop 32).take 48)
        ++ List.replicate 10 (((List.range 64).drop 48).take 64)) ∧
    (((List.range 64).drop 16).take 32).length = 32 ∧
    ((List.range 64).drop 16).take 32 ≠ ((List.range 64).drop 16).take 16 := by
  refine ⟨?_, by decide, by decide⟩
  simp only [writeUserData, if_pos trivial, writeData, qtMid, List.map_append,
    List.map_replicate, payloadOfWriteFrame_writeDataFrame, List.drop_zero]

/-! ### Packet decoders (`SM_6210.cpp`)

Each decoder scans the shared ingress buffer `BUFFER` for the earliest
header byte and, on success, returns the updated buffer; `none` models a
`false` return with the buffer untouched. -/

/-- Index of the first occurrence of byte `b`; equals `buf.length` when `b`
does not occur (the C++ scan loop exits with `i == BUFFER.length()`). -/
def firstIdx (buf : List Nat) (b : Nat) : Nat :=
  match buf with
  | [] => 0
  | x :: xs => if x = b then 0 else firstIdx xs b + 1

/-- Model of `QByteArray::remove(pos, n)` for in-range non-negative arguments. -/
def qtRemove (l : List Nat) (pos n : Nat) : List Nat :=
  l.take pos ++ l.drop (pos + n)

/-- Model of `SM_6210::readAckPacket`: scan for the earliest `0xE0`, require 8
bytes from there, validate the fixed `GET_SINGLE_PARAM`/`ADD_USERCODE`
contents and the checksum of the first 7 frame bytes, then
`BUFFER.remove(i, 8)` — the leading garbage is kept (and `ackSingleFrame`
is transmitted, covered by the framing claims).  The C++ scan loop is
expressed as structural recursion over the leading non-`0xE0` bytes; at
the header byte the C++ buffer indices `i + k` become relative indices
`k`, and the kept prefix is re-attached around the removal. -/
def readAckPacket : List Nat → Option (List Nat)
  | [] => none
  | b :: l =>
    if b = HEADER_RESPONSE_CODE then
      let buf := b :: l
      if 8 > buf.length then none
      else if byteAt buf 0 = HEADER_RESPONSE_CODE ∧ byteAt buf 1 = 0x06 ∧
              byteAt buf 2 = DEV_GET_SINGLE_PARAM ∧ byteAt buf 3 = 0x00 ∧
              byteAt buf 4 = 0x00 ∧ byteAt buf 5 = CRP_ADD_USERCODE ∧
              byteAt buf 6 = 0x00 ∧ byteAt buf 7 = Checksum (qtMid buf 0 7) then
        some (buf.drop 8)
      else none
    else (readAckPacket l).map (fun r => b :: r)

/-- Model of `SM_6210::readInformationPacket`: scan for the earliest `0xE0`, read
the size byte, check label and opcode, read the signed start address,
compute the payload byte length as twice the word-count byte (assigned to
a `quint8`, hence modulo 256), verify the checksum over
`mid(shift, len + 7)` unless disabled, extract the payload bytes
`shift+7 … shift+len+6`, and `BUFFER.remove(0, shift + len + 7)` — the
removal starts at index 0, so the leading garbage is dropped along with
the frame.  The C++ scan loop is structural recursion over the leading
non-`0xE0` bytes: at the header byte the C++ indices `shift + k` become
relative indices `k`, and because the removal is anchored at index 0 the
skipped garbage never reappears in the result; the C++ guard
`BUFFER.length() < shift + 1` (header absent or buffer empty) is the `[]`
case.  Returns payload, start address and the updated buffer. -/
def readInformationPacket (label : Nat × Nat) (singleTag verifyChecksum : Bool) :
    List Nat → Option (List Nat × Int × List Nat)
  | [] => none
  | b :: l =>
    if b = HEADER_RESPONSE_CODE then
      let buf := b :: l
      let size := byteAt buf 1
      if buf.length > size then
        if byteAt buf 3 = label.1 ∧ byteAt buf 4 = label.2 ∧
           byteAt buf 2 = (if singleTag then DEV_READ_SINGLE_TAG else DEV_READ_TAG_DATA) then
          let len := (byteAt buf 6 * 2) % 256
          if byteAt buf (len + 7) = Checksum (qtMid buf 0 (len + 7)) ∨
             verifyChecksum = false then
            some (qtMid buf 7 len, signExtend (byteAt buf 5), buf.drop (len + 7))
          else none
        else none
      else none
    else readInformationPacket label singleTag verifyChecksum l

/-- Model of `SM_6210::readStdResult`: find the earliest `0xE4`; if a size byte
follows, `BUFFER.remove(0, shift + packetSize)` where `packetSize` is the
sign-extended size byte (Qt ignores a non-positive removal count). -/
def readStdResult (buf : List Nat) : Option (List Nat) :=
  let shift := firstIdx buf HEADER_RESULT_CODE
  if shift < buf.length ∧ shift + 1 < buf.length then
    some (buf.drop (((shift : Int) + signExtend (byteAt buf (shift + 1))).toNat))
  else none

/-- Model of `SM_6210::readStdResponse`: find the earliest `0xE0`; if a size byte
follows and its sign-extended value is < 6, remove `shift + packetSize`
bytes from the front. -/
def readStdResponse (buf : List Nat) : Option (List Nat) :=
  let shift := firstIdx buf HEADER_RESPONSE_CODE
  if shift < buf.length ∧ shift + 1 < buf.length ∧
     signExtend (byteAt buf (shift + 1)) < 6 then
    some (buf.drop (((shift : Int) + signExtend (byteAt buf (shift + 1))).toNat))
  else none

/-- Model of `SM_6210::readUsrPacket`: decode a USR information packet, compute
`datagram = startAddress / 8` with C++ truncating division, and drop the
event (returning `false`, first component `none`) when the index is out of
`[0, RFID_NUM_USER_DATAGRAMS)`; note the packet bytes stay consumed.  The
first component is the emitted `usrFound(usr, datagram)` event, if any;
the second is the resulting buffer. -/
def readUsrPacket (buf : List Nat) : Option (List Nat × Int) × List Nat :=
  match readInformationPacket USR_LABEL false true buf with
  | some (usr, startAddress, buf') =>
    let datagram := Int.tdiv startAddress 8
    if datagram > (RFID_NUM_USER_DATAGRAMS : Int) - 1 ∨ datagram < 0 then (none, buf')
    else (some (usr, datagram), buf')
  | none => (none, buf)

/-- Model of `SM_6210::onDataReceived`: drop empty batches and batches while not
loaded, append to the buffer, try the decoders in their exact priority
order (ack, EPC-from-scan, EPC, TID, RFU, USR, stray response, stray
result), and when none matched clear the buffer if it exceeds
`RFID_MAX_BUFFER_SIZE`.  A USR packet whose datagram index is out of range
counts as "not matched" even though its bytes were already consumed. -/
def onDataReceived (loaded : Bool) (buffer data : List Nat) : List Nat :=
  if data = [] then buffer
  else if loaded = false then buffer
  else
    let buf := buffer ++ data
    match readAckPacket buf with
    | some b => b
    | none =>
      match readInformationPacket EPC_LABEL true false buf with
      | some (_, _, b) => b
      | none =>
        match readInformationPacket EPC_LABEL false true buf with
        | some (_, _, b) => b
        | none =>
          match readInformationPacket TID_LABEL false true buf with
          | some (_, _, b) => b
          | none =>
            match readInformationPacket RFU_LABEL false true buf with
            | some (_, _, b) => b
            | none =>
              match readUsrPacket buf with
              | (some _, b) => b
              | (none, b) =>
                match readStdResponse b with
                | some b1 => b1
                | none =>
                  match readStdResult b with
                  | some b1 => b1
                  | none =>
                    if b.length > RFID_MAX_BUFFER_SIZE then [] else b

/-! ### Claim C9: user datagram indices never escape `[0, 4)` -/

/-- C9 — whenever `readUsrPacket` emits a `usrFound(usr, datagram)` event,
the datagram index computed as `startAddress / 8` from the (sign-extended)
word-start byte lies in `[0, RFID_NUM_USER_DATAGRAMS)`, so the
aggregator's access into the four-entry user array is in bounds. -/
theorem usr_datagram_in_range (buf usr buf' : List Nat) (d : Int)
    (h : readUsrPacket buf = (some (usr, d), buf')) :
    0 ≤ d ∧ d < (RFID_NUM_USER_DATAGRAMS : Int) ∧
      d.toNat < RFID_NUM_USER_DATAGRAMS := by
  unfold readUsrPacket at h
  cases heq : readInformationPacket USR_LABEL false true buf with
  | none => rw [heq] at h; simp at h
  | some v =>
    obtain ⟨u, s, b⟩ := v
    rw [heq] at h
    by_cases hc : Int.tdiv s 8 > (RFID_NUM_USER_DATAGRAMS : Int) - 1 ∨ Int.tdiv s 8 < 0
    · simp only [hc, if_pos] at h
      simp at h
    · simp only [hc, if_neg, if_false] at h
      simp only [Prod.mk.injEq, Option.some.injEq] at h
      obtain ⟨⟨_, hd⟩, _⟩ := h
      push_neg at hc
      subst hd
      refine ⟨hc.2, ?_, ?_⟩ <;> simp [RFID_NUM_USER_DATAGRAMS] at hc ⊢ <;> omega

/-- Witness for C9: a concrete USR information packet with word start 8
decodes to datagram index 1, which the theorem places in `[0, 4)`. -/
theorem usr_datagram_in_range_witness :
    (0 : Int) ≤ 1 ∧ (1 : Int) < (RFID_NUM_USER_DATAGRAMS : Int) ∧
      (1 : Int).toNat < RFID_NUM_USER_DATAGRAMS :=
  usr_datagram_in_range
    [0xE0, 0x09, 0x80, 0x00, 0x03, 0x08, 0x01, 0xAA, 0xBB, 38]
    [0xAA, 0xBB] [38] 1 (by decide)

/-! ### Claim C2, counterexample: what a successful decode really removes -/

/-- C2, counterexample — on the buffer `FF` followed by a complete valid
TID frame, the decoder succeeds but the resulting buffer still holds the
frame's final checksum byte (`235`), not the empty buffer the claim
requires; and the ack decoder on `FF` followed by a valid ack frame
removes only the 8 frame bytes, leaving the leading garbage byte in
place. -/
theorem decode_removal_counterexample :
    readInformationPacket TID_LABEL false true
        ([0xFF] ++ [0xE0, 0x09, 0x80, 0x00, 0x02, 0x00, 0x01, 0xCC, 0xDD, 235])
      = some ([0xCC, 0xDD], 0, [235]) ∧
    ([235] : List Nat) ≠ [] ∧
    readAckPacket ([0xFF] ++ [0xE0, 0x06, 0x61, 0x00, 0x00, 0x64, 0x00, 85])
      = some [0xFF] ∧
    ([0xFF] : List Nat) ≠ [] := by
  refine ⟨by decide, by decide, by decide, by decide⟩

/-! ### Claim C2, amended: resynchronisation with the exact removal extents -/

theorem byteAt_append (A l : List Nat) (k : Nat) :
    byteAt (A ++ l) (A.length + k) = byteAt l k := by
  simp [byteAt, List.getElem?_append_right (Nat.le_add_right A.length k),
    Nat.add_sub_cancel_left]

/-- Leading bytes that are not the response header are skipped by the
information-packet decoder, and — because the removal is anchored at
buffer index 0 — they are also dropped from the resulting buffer. -/
theorem readInfo_skip_garbage (label : Nat × Nat) (st vc : Bool) (G l : List Nat)
    (hG : ∀ x ∈ G, x ≠ HEADER_RESPONSE_CODE) :
    readInformationPacket label st vc (G ++ l)
      = readInformationPacket label st vc l := by
  induction G with
  | nil => simp
  | cons g G ih =>
    have hg : g ≠ HEADER_RESPONSE_CODE := hG g (by simp)
    have ih' := ih fun x hx => hG x (by simp [hx])
    simp only [List.cons_append, readInformationPacket, if_neg hg, List.append_eq]
    exact ih'

/-- Leading non-header bytes are skipped by the ack decoder but kept in the
resulting buffer: the removal `BUFFER.remove(i, 8)` is anchored at the
header position. -/
theorem readAck_skip_garbage (G l : List Nat)
    (hG : ∀ x ∈ G, x ≠ HEADER_RESPONSE_CODE) :
    readAckPacket (G ++ l) = (readAckPacket l).map (fun r => G ++ r) := by
  induction G with
  | nil =>
    simp only [List.nil_append]
    cases readAckPacket l <;> simp
  | cons g G ih =>
    have hg : g ≠ HEADER_RESPONSE_CODE := hG g (by simp)
    have ih' := ih fun x hx => hG x (by simp [hx])
    simp only [List.cons_append, readAckPacket, if_neg hg, List.append_eq]
    rw [ih']
    cases readAckPacket l <;> simp

/-- Well-formed information frame as the SM-6210 reader emits it: header,
size byte `2·w + 7`, opcode, two label bytes, start address, word count
`w`, `2·w` payload bytes, and the checksum of all preceding bytes. -/
def mkInfoCore (label : Nat × Nat) (singleTag : Bool) (startAddress wordCount : Nat)
    (payload : List Nat) : List Nat :=
  [HEADER_RESPONSE_CODE, 2 * wordCount + 7,
   if singleTag then DEV_READ_SINGLE_TAG else DEV_READ_TAG_DATA,
   label.1, label.2, startAddress, wordCount] ++ payload

def mkInfoFrame (label : Nat × Nat) (singleTag : Bool) (startAddress wordCount : Nat)
    (payload : List Nat) : List Nat :=
  mkInfoCore label singleTag startAddress wordCount payload ++
    [Checksum (mkInfoCore label singleTag startAddress wordCount payload)]

/-- One-step unfolding of the decoder at a buffer that starts with the
response header byte. -/
theorem readInfo_at_header (label : Nat × Nat) (st vc : Bool) (l : List Nat) :
    readInformationPacket label st vc (HEADER_RESPONSE_CODE :: l)
      = (if (HEADER_RESPONSE_CODE :: l).length > byteAt (HEADER_RESPONSE_CODE :: l) 1 then
           if byteAt (HEADER_RESPONSE_CODE :: l) 3 = label.1 ∧
              byteAt (HEADER_RESPONSE_CODE :: l) 4 = label.2 ∧
              byteAt (HEADER_RESPONSE_CODE :: l) 2
                = (if st then DEV_READ_SINGLE_TAG else DEV_READ_TAG_DATA) then
             if byteAt (HEADER_RESPONSE_CODE :: l)
                    (byteAt (HEADER_RESPONSE_CODE :: l) 6 * 2 % 256 + 7)
                  = Checksum (qtMid (HEADER_RESPONSE_CODE :: l) 0
                      (byteAt (HEADER_RESPONSE_CODE :: l) 6 * 2 % 256 + 7)) ∨
                vc = false then
               some (qtMid (HEADER_RESPONSE_CODE :: l) 7
                       (byteAt (HEADER_RESPONSE_CODE :: l) 6 * 2 % 256),
                     signExtend (byteAt (HEADER_RESPONSE_CODE :: l) 5),
                     (HEADER_RESPONSE_CODE :: l).drop
                       (byteAt (HEADER_RESPONSE_CODE :: l) 6 * 2 % 256 + 7))
             else none
           else none
         else none) := rfl

/-- Decoding a buffer that starts with a complete well-formed information
frame succeeds and consumes the frame *except its final checksum byte*,
which stays at the front of the remaining buffer. -/
theorem readInfo_frame (label : Nat × Nat) (st vc : Bool) (s w : Nat)
    (payload Gp : List Nat) (hw : w ≤ 124) (hp : payload.length = 2 * w) :
    readInformationPacket label st vc (mkInfoFrame label st s w payload ++ Gp)
      = some (payload, signExtend s,
          Checksum (mkInfoCore label st s w payload) :: Gp) := by
  set C := Checksum (mkInfoCore label st s w payload) with hC
  set op := (if st then DEV_READ_SINGLE_TAG else DEV_READ_TAG_DATA) with hopd
  set T := payload ++ C :: Gp with hT
  have hsplit : HEADER_RESPONSE_CODE :: (2 * w + 7) :: op :: label.1 :: label.2 :: s :: w :: T
      = mkInfoCore label st s w payload ++ C :: Gp := by
    simp [mkInfoCore, hT, hopd]
  have hcore : mkInfoFrame label st s w payload ++ Gp
      = mkInfoCore label st s w payload ++ C :: Gp := by
    simp [mkInfoFrame, ← hC]
  have hbuf := hcore.trans hsplit.symm
  have hclen : (mkInfoCore label st s w payload).length = 2 * w + 7 := by
    simp [mkInfoCore, hp]
  have hmod : w * 2 % 256 = 2 * w := by omega
  have hlen : (HEADER_RESPONSE_CODE :: (2 * w + 7) :: op :: label.1 :: label.2 :: s :: w :: T).length
      > 2 * w + 7 := by
    rw [hsplit]
    simp [hclen]
  have hck : byteAt (HEADER_RESPONSE_CODE :: (2 * w + 7) :: op :: label.1 :: label.2 :: s :: w :: T)
      (2 * w + 7) = C := by
    rw [hsplit, ← hclen]
    simpa [byteAt] using byteAt_append (mkInfoCore label st s w payload) (C :: Gp) 0
  have htake : List.take (2 * w + 7)
      (HEADER_RESPONSE_CODE :: (2 * w + 7) :: op :: label.1 :: label.2 :: s :: w :: T)
      = mkInfoCore label st s w payload := by
    rw [hsplit, ← hclen, List.take_left]
  have hdropF : List.drop (2 * w + 7)
      (HEADER_RESPONSE_CODE :: (2 * w + 7) :: op :: label.1 :: label.2 :: s :: w :: T)
      = C :: Gp := by
    rw [hsplit, ← hclen, List.drop_left]
  have hpay : List.take (2 * w) (List.drop 7
      (HEADER_RESPONSE_CODE :: (2 * w + 7) :: op :: label.1 :: label.2 :: s :: w :: T))
      = payload := by
    have h7 : List.drop 7
        (HEADER_RESPONSE_CODE :: (2 * w + 7) :: op :: label.1 :: label.2 :: s :: w :: T)
        = payload ++ C :: Gp := by rw [← hT]; rfl
    rw [h7, ← hp, List.take_left]
  have b1 : byteAt (HEADER_RESPONSE_CODE :: (2 * w + 7) :: op :: label.1 :: label.2 :: s :: w :: T) 1
      = 2 * w + 7 := by simp [byteAt]
  have b2 : byteAt (HEADER_RESPONSE_CODE :: (2 * w + 7) :: op :: label.1 :: label.2 :: s :: w :: T) 2
      = op := by simp [byteAt]
  have b3 : byteAt (HEADER_RESPONSE_CODE :: (2 * w + 7) :: op :: label.1 :: label.2 :: s :: w :: T) 3
      = label.1 := by simp [byteAt]
  have b4 : byteAt (HEADER_RESPONSE_CODE :: (2 * w + 7) :: op :: label.1 :: label.2 :: s :: w :: T) 4
      = label.2 := by simp [byteAt]
  have b5 : byteAt (HEADER_RESPONSE_CODE :: (2 * w + 7) :: op :: label.1 :: label.2 :: s :: w :: T) 5
      = s := by simp [byteAt]
  have b6 : byteAt (HEADER_RESPONSE_CODE :: (2 * w + 7) :: op :: label.1 :: label.2 :: s :: w :: T) 6
      = w := by simp [byteAt]
  rw [hbuf, readInfo_at_header, b1, b6, hmod, b3, b4, b2, b5]
  rw [if_pos hlen, if_pos ⟨rfl, rfl, hopd⟩]
  have hq0 : qtMid (HEADER_RESPONSE_CODE :: (2 * w + 7) :: op :: label.1 :: label.2 :: s :: w :: T)
      0 (2 * w + 7) = mkInfoCore label st s w payload := by
    simp only [qtMid, List.drop_zero]
    exact htake
  have hq7 : qtMid (HEADER_RESPONSE_CODE :: (2 * w + 7) :: op :: label.1 :: label.2 :: s :: w :: T)
      7 (2 * w) = payload := hpay
  rw [hq0, hck, if_pos (Or.inl hC), hq7, hdropF]

/-- The single-tag session offer frame the reader sends, as validated by
`readAckPacket`: `E0 06 61 00 00 64 00` plus its checksum. -/
def ackRequestBytes : List Nat :=
  [HEADER_RESPONSE_CODE, 0x06, DEV_GET_SINGLE_PARAM, 0x00, 0x00, CRP_ADD_USERCODE, 0x00] ++
    [Checksum [HEADER_RESPONSE_CODE, 0x06, DEV_GET_SINGLE_PARAM, 0x00, 0x00,
               CRP_ADD_USERCODE, 0x00]]

/-- One-step unfolding of the ack decoder at a buffer that starts with the
response header byte. -/
theorem readAck_at_header (l : List Nat) :
    readAckPacket (HEADER_RESPONSE_CODE :: l)
      = (if 8 > (HEADER_RESPONSE_CODE :: l).length then none
         else if byteAt (HEADER_RESPONSE_CODE :: l) 0 = HEADER_RESPONSE_CODE ∧
                 byteAt (HEADER_RESPONSE_CODE :: l) 1 = 0x06 ∧
                 byteAt (HEADER_RESPONSE_CODE :: l) 2 = DEV_GET_SINGLE_PARAM ∧
                 byteAt (HEADER_RESPONSE_CODE :: l) 3 = 0x00 ∧
                 byteAt (HEADER_RESPONSE_CODE :: l) 4 = 0x00 ∧
                 byteAt (HEADER_RESPONSE_CODE :: l) 5 = CRP_ADD_USERCODE ∧
                 byteAt (HEADER_RESPONSE_CODE :: l) 6 = 0x00 ∧
                 byteAt (HEADER_RESPONSE_CODE :: l) 7
                   = Checksum (qtMid (HEADER_RESPONSE_CODE :: l) 0 7) then
           some ((HEADER_RESPONSE_CODE :: l).drop 8)
         else none) := rfl

/-- A buffer that starts with a complete valid ack frame decodes
successfully, removing exactly the 8 frame bytes. -/
theorem readAck_frame (Gp : List Nat) :
    readAckPacket (ackRequestBytes ++ Gp) = some Gp := by
  have hb : ackRequestBytes ++ Gp
      = HEADER_RESPONSE_CODE :: 0x06 :: DEV_GET_SINGLE_PARAM :: 0x00 :: 0x00 ::
        CRP_ADD_USERCODE :: 0x00 :: 85 :: Gp := by
    have h85 : Checksum [HEADER_RESPONSE_CODE, 0x06, DEV_GET_SINGLE_PARAM, 0x00, 0x00,
        CRP_ADD_USERCODE, 0x00] = 85 := rfl
    simp [ackRequestBytes, h85]
  rw [hb, readAck_at_header]
  rw [if_neg (by simp)]
  rw [if_pos ?_]
  · simp
  · refine ⟨rfl, rfl, rfl, rfl, rfl, rfl, rfl, ?_⟩
    simp [byteAt, qtMid, Checksum, sumMod, HEADER_RESPONSE_CODE, DEV_GET_SINGLE_PARAM,
      CRP_ADD_USERCODE]

/-- C2, amended — a successful decode anchored at the earliest response
header byte (after any amount of header-free garbage) removes, for the
information-packet decoders, the garbage together with the frame *except
its final checksum byte*, which remains at the front of the buffer; the
ack decoder instead removes exactly the 8 frame bytes at their position,
leaving the leading garbage in place.  In both cases all bytes after the
frame are left in the buffer. -/
theorem decode_resync_amended :
    (∀ (G Gp payload : List Nat) (label : Nat × Nat) (s w : Nat) (st vc : Bool),
      (∀ x ∈ G, x ≠ HEADER_RESPONSE_CODE) → w ≤ 124 → payload.length = 2 * w →
      readInformationPacket label st vc (G ++ (mkInfoFrame label st s w payload ++ Gp))
        = some (payload, signExtend s,
            Checksum (mkInfoCore label st s w payload) :: Gp)) ∧
    (∀ G Gp : List Nat, (∀ x ∈ G, x ≠ HEADER_RESPONSE_CODE) →
      readAckPacket (G ++ (ackRequestBytes ++ Gp)) = some (G ++ Gp)) := by
  constructor
  · intro G Gp payload label s w st vc hG hw hp
    rw [readInfo_skip_garbage label st vc G _ hG,
      readInfo_frame label st vc s w payload Gp hw hp]
  · intro G Gp hG
    rw [readAck_skip_garbage G _ hG, readAck_frame]
    rfl

/-- Witness for the amended C2, at garbage `FF`, a TID frame with word
count 1 and payload `CC DD`, and trailing bytes. -/
theorem decode_resync_amended_witness :
    readInformationPacket TID_LABEL false true
        ([0xFF] ++ (mkInfoFrame TID_LABEL false 0 1 [0xCC, 0xDD] ++ [0x07]))
      = some ([0xCC, 0xDD], signExtend 0,
          Checksum (mkInfoCore TID_LABEL false 0 1 [0xCC, 0xDD]) :: [0x07]) ∧
    readAckPacket ([0xFF] ++ (ackRequestBytes ++ [0x09])) = some ([0xFF] ++ [0x09]) :=
  ⟨decode_resync_amended.1 [0xFF] [0x07] [0xCC, 0xDD] TID_LABEL 0 1 false true
      (by decide) (by decide) (by decide),
   decode_resync_amended.2 [0xFF] [0x09] (by decide)⟩

/-! ### Claim C6: the ingress buffer cap -/

/-- C6, counterexample — one ingress batch consisting of a valid ack frame
followed by 16385 garbage bytes: the ack decoder matches, `onDataReceived`
returns immediately, and the skipped cap check leaves 16385 bytes
(> `RFID_MAX_BUFFER_SIZE` = 16384) in the buffer after the batch. -/
theorem buffer_cap_counterexample :
    RFID_MAX_BUFFER_SIZE <
      (onDataReceived true [] (ackRequestBytes ++ List.replicate 16385 0xFF)).length := by
  generalize hR : List.replicate 16385 (0xFF : Nat) = R
  have hdata : ackRequestBytes ++ R ≠ [] := by
    simp [ackRequestBytes]
  have hres : onDataReceived true [] (ackRequestBytes ++ R) = R := by
    unfold onDataReceived
    rw [if_neg hdata, if_neg (by decide : ¬ (true = false))]
    simp only [List.nil_append, readAck_frame]
  rw [hres, ← hR, List.length_replicate]
  norm_num [RFID_MAX_BUFFER_SIZE]

/-- C6, amended — the 16 KiB cap is enforced only on ingress batches in
which no decoder matched (a USR frame whose datagram index is out of range
counts as "not matched", although its bytes were already consumed): after
such a batch the buffer — as the USR decoder left it — holds at most
`RFID_MAX_BUFFER_SIZE` bytes, and when it would exceed the cap it is
discarded entirely; a batch in which a decoder succeeds skips the cap
check and can leave more than `RFID_MAX_BUFFER_SIZE` bytes buffered (see
the counterexample). -/
theorem buffer_cap_amended (buffer data : List Nat)
    (hdata : data ≠ [])
    (hAck : readAckPacket (buffer ++ data) = none)
    (hScan : readInformationPacket EPC_LABEL true false (buffer ++ data) = none)
    (hEpc : readInformationPacket EPC_LABEL false true (buffer ++ data) = none)
    (hTid : readInformationPacket TID_LABEL false true (buffer ++ data) = none)
    (hRfu : readInformationPacket RFU_LABEL false true (buffer ++ data) = none)
    (hUsr : (readUsrPacket (buffer ++ data)).1 = none)
    (hResp : readStdResponse (readUsrPacket (buffer ++ data)).2 = none)
    (hRes : readStdResult (readUsrPacket (buffer ++ data)).2 = none) :
    (onDataReceived true buffer data).length ≤ RFID_MAX_BUFFER_SIZE ∧
    ((readUsrPacket (buffer ++ data)).2.length > RFID_MAX_BUFFER_SIZE →
      onDataReceived true buffer data = []) := by
  rcases hu : readUsrPacket (buffer ++ data) with ⟨o, b⟩
  rw [hu] at hUsr hResp hRes
  dsimp only at hUsr hResp hRes
  subst hUsr
  dsimp only
  have hres : onDataReceived true buffer data
      = if b.length > RFID_MAX_BUFFER_SIZE then [] else b := by
    unfold onDataReceived
    rw [if_neg hdata, if_neg (by simp : ¬ (true = false))]
    simp only [hAck, hScan, hEpc, hTid, hRfu, hu, hResp, hRes]
  constructor
  · rw [hres]
    by_cases h : b.length > RFID_MAX_BUFFER_SIZE
    · rw [if_pos h]
      simp
    · rw [if_neg h]
      omega
  · intro h
    rw [hres, if_pos h]

/-- Witness for the amended C6: a batch holding a well-formed USR frame
whose word start 0x20 yields the out-of-range datagram index 4 — every
decoder reports failure although the frame bytes are consumed, and the
consumed buffer (the leftover checksum byte) is within the cap. -/
theorem buffer_cap_amended_witness :
    (onDataReceived true []
        [0xE0, 0x09, 0x80, 0x00, 0x03, 0x20, 0x01, 0xAA, 0xBB, 0x0E]).length
      ≤ RFID_MAX_BUFFER_SIZE ∧
    ((readUsrPacket (([] : List Nat) ++
        [0xE0, 0x09, 0x80, 0x00, 0x03, 0x20, 0x01, 0xAA, 0xBB, 0x0E])).2.length
        > RFID_MAX_BUFFER_SIZE →
      onDataReceived true []
        [0xE0, 0x09, 0x80, 0x00, 0x03, 0x20, 0x01, 0xAA, 0xBB, 0x0E] = []) :=
  buffer_cap_amended [] [0xE0, 0x09, 0x80, 0x00, 0x03, 0x20, 0x01, 0xAA, 0xBB, 0x0E]
    (by decide) (by decide) (by decide) (by decide) (by decide) (by decide)
    (by decide) (by decide) (by decide)

/-! ### Tag aggregator (`RFID` class and `RFID_Tag` from `RFID_Global.h`)

`RFID_Tag` records live on the C++ heap and are passed around by pointer;
the model keeps every allocated record in an append-only `heap` list and
uses the allocation index as the pointer value, so pointer equality is
index equality.  `m_tags` (the history) is a list of such indices,
`m_currentTag` an optional index (possibly of a record that is not in the
history — the source does produce such orphans).  `m_watchdog.start()` is
modelled by recording the time `now` of the call; emitted Qt signals are
appended to `notes`. -/

structure RTag where
  epc : List Nat
  tid : List Nat
  rfu : List Nat
  usr : List (List Nat)
deriving DecidableEq, Repr, Inhabited

/-- A freshly constructed `RFID_Tag`: all byte arrays empty,
`RFID_NUM_USER_DATAGRAMS = 4` empty user datagrams. -/
def emptyTag : RTag := ⟨[], [], [], [[], [], [], []]⟩

inductive AggNote where
  | tagUpdated
  | tagCountChanged
  | currentTagChanged
deriving DecidableEq, Repr

structure AggState where
  heap : List RTag
  history : List Nat
  current : Option Nat
  reader : Bool
  watchdogStart : Nat
  notes : List AggNote
deriving DecidableEq, Repr

def initAgg : AggState := ⟨[], [], none, true, 0, []⟩

def heapTag (s : AggState) (i : Nat) : RTag := s.heap.getD i emptyTag

/-- Model of `RFID::updateTagData`: overwrite `dest` with `src` when `src` is
non-empty and differs; the second component records whether `tagUpdated`
was emitted. -/
def updateTagData (dest src : List Nat) : List Nat × Bool :=
  if src ≠ [] ∧ dest ≠ src then (src, true) else (dest, false)

def noteIf (b : Bool) (n : AggNote) : List AggNote := if b then [n] else []

/-- The merge body of the `updateTagList` scan loop: copy each field of
`src` into `t` via `updateTagData` — epc, tid, rfu, then the four user
datagrams in order. -/
def mergeInto (t src : RTag) : RTag × List AggNote :=
  let e := updateTagData t.epc src.epc
  let ti := updateTagData t.tid src.tid
  let r := updateTagData t.rfu src.rfu
  let u0 := updateTagData (t.usr.getD 0 []) (src.usr.getD 0 [])
  let u1 := updateTagData (t.usr.getD 1 []) (src.usr.getD 1 [])
  let u2 := updateTagData (t.usr.getD 2 []) (src.usr.getD 2 [])
  let u3 := updateTagData (t.usr.getD 3 []) (src.usr.getD 3 [])
  (⟨e.1, ti.1, r.1, [u0.1, u1.1, u2.1, u3.1]⟩,
   noteIf e.2 .tagUpdated ++ noteIf ti.2 .tagUpdated ++ noteIf r.2 .tagUpdated ++
   noteIf u0.2 .tagUpdated ++ noteIf u1.2 .tagUpdated ++ noteIf u2.2 .tagUpdated ++
   noteIf u3.2 .tagUpdated)

/-- The scan loop of `RFID::updateTagList`: find the first history entry
whose `epc` *or* `tid` equals the new tag's (no non-emptiness check in the
source), merge the new tag's data into it and stop.  Returns the updated
heap, whether a match was found (`tagFound`), and the emitted signals. -/
def mergeLoop (heap : List RTag) (hist : List Nat) (t : Nat) :
    List RTag × Bool × List AggNote :=
  match hist with
  | [] => (heap, false, [])
  | h :: rest =>
    let th := heap.getD h emptyTag
    let tt := heap.getD t emptyTag
    if th.epc = tt.epc ∨ th.tid = tt.tid then
      let m := mergeInto th tt
      (heap.set h m.1, true, m.2)
    else mergeLoop heap rest t

/-- The deduplication sweep of `RFID::updateTagList`:
`for(i) for(j = i+1) { if(ta == tb) removeAt(j); else if(ta->tid == tb->tid)
removeAt(j); }`, with `tags` re-read after each removal.  Note that after
`removeAt(j)` the loop continues with `j + 1`, skipping the element that
shifted into position `j`.  The doubly nested loop performs fewer than
`(n + 2)²` iterations on a list of length `n` (each step increments `j`,
both `i` and `j` are bounded by the never-increasing length), so the fuel
passed by `updateTagList` never runs out. -/
def sweepLoop (heap : List RTag) : Nat → List Nat → Nat → Nat → List Nat × List AggNote
  | 0, l, _, _ => (l, [])
  | fuel + 1, l, i, j =>
    if i < l.length then
      if j < l.length then
        if l.getD i 0 = l.getD j 0 ∨
           (heap.getD (l.getD i 0) emptyTag).tid = (heap.getD (l.getD j 0) emptyTag).tid then
          let r := sweepLoop heap fuel (l.eraseIdx j) i (j + 1)
          (r.1, AggNote.tagCountChanged :: r.2)
        else sweepLoop heap fuel l i (j + 1)
      else sweepLoop heap fuel l (i + 1) (i + 2)
    else (l, [])

/-- Model of `RFID::updateTagList(tag)`: restart the watchdog, merge into the first
matching history entry or append the tag (emitting `tagCountChanged`), run
the deduplication sweep, and make `tag` current (emitting
`currentTagChanged`) unless it already is. -/
def updateTagList (s : AggState) (now : Nat) (t : Nat) : AggState :=
  let m := mergeLoop s.heap s.history t
  let heap2 := m.1
  let found := m.2.1
  let hist1 := if found then s.history else s.history ++ [t]
  let ns2 : List AggNote := if found then [] else [AggNote.tagCountChanged]
  let sw := sweepLoop heap2 ((hist1.length + 2) * (hist1.length + 2)) hist1 0 1
  let cur : Option Nat := if s.current ≠ some t then some t else s.current
  let ns4 : List AggNote := if s.current ≠ some t then [AggNote.currentTagChanged] else []
  { heap := heap2, history := sw.1, current := cur, reader := s.reader,
    watchdogStart := now, notes := s.notes ++ m.2.2 ++ ns2 ++ sw.2 ++ ns4 }

/-- Model of `RFID::onTidFound`: allocate a record carrying only `tid`; if the
current tag has a different non-empty tid, register the new record; else
refine the current tag's tid and re-register the current tag. -/
def onTidFound (s : AggState) (now : Nat) (tid : List Nat) : AggState :=
  match s.current with
  | some c =>
    let cur := heapTag s c
    if cur.tid ≠ tid ∧ cur.tid ≠ [] then
      updateTagList { s with heap := s.heap ++ [{ emptyTag with tid := tid }] }
        now s.heap.length
    else
      let f := updateTagData cur.tid tid
      updateTagList
        { s with heap := s.heap.set c { cur with tid := f.1 },
                 notes := s.notes ++ noteIf f.2 .tagUpdated } now c
  | none =>
    updateTagList { s with heap := s.heap ++ [{ emptyTag with tid := tid }] }
      now s.heap.length

/-- Model of `RFID::onEpcFound`: like `onTidFound`, except that the refine branch
only calls `updateTagData` — it does *not* call `updateTagList`, so no
history merge, no sweep and no watchdog restart happen on that path. -/
def onEpcFound (s : AggState) (now : Nat) (epc : List Nat) : AggState :=
  match s.current with
  | some c =>
    let cur := heapTag s c
    if cur.epc ≠ epc ∧ cur.epc ≠ [] then
      updateTagList { s with heap := s.heap ++ [{ emptyTag with epc := epc }] }
        now s.heap.length
    else
      let f := updateTagData cur.epc epc
      { s with heap := s.heap.set c { cur with epc := f.1 },
               notes := s.notes ++ noteIf f.2 .tagUpdated }
  | none =>
    updateTagList { s with heap := s.heap ++ [{ emptyTag with epc := epc }] }
      now s.heap.length

/-- Model of `RFID::onRfuFound`: analogous to `onTidFound` for the `rfu` field. -/
def onRfuFound (s : AggState) (now : Nat) (rfu : List Nat) : AggState :=
  match s.current with
  | some c =>
    let cur := heapTag s c
    if cur.rfu ≠ rfu ∧ cur.rfu ≠ [] then
      updateTagList { s with heap := s.heap ++ [{ emptyTag with rfu := rfu }] }
        now s.heap.length
    else
      let f := updateTagData cur.rfu rfu
      updateTagList
        { s with heap := s.heap.set c { cur with rfu := f.1 },
                 notes := s.notes ++ noteIf f.2 .tagUpdated } now c
  | none =>
    updateTagList { s with heap := s.heap ++ [{ emptyTag with rfu := rfu }] }
      now s.heap.length

/-- Model of `RFID::onUsrFound`: analogous to `onTidFound` for user datagram
`datagram` (in bounds by claim C9). -/
def onUsrFound (s : AggState) (now : Nat) (usr : List Nat) (datagram : Nat) : AggState :=
  match s.current with
  | some c =>
    let cur := heapTag s c
    let cd := cur.usr.getD datagram []
    if cd ≠ usr ∧ cd ≠ [] then
      updateTagList
        { s with heap := s.heap ++ [{ emptyTag with usr := emptyTag.usr.set datagram usr }] }
        now s.heap.length
    else
      let f := updateTagData cd usr
      updateTagList
        { s with heap := s.heap.set c { cur with usr := cur.usr.set datagram f.1 },
                 notes := s.notes ++ noteIf f.2 .tagUpdated } now c
  | none =>
    updateTagList
      { s with heap := s.heap ++ [{ emptyTag with usr := emptyTag.usr.set datagram usr }] }
      now s.heap.length

/-- Model of `RFID::resetCurrentTag` (the watchdog expiry slot): with a reader
present, clear the current tag and emit `currentTagChanged`; in all cases
restart the watchdog (`m_watchdog.start()`). -/
def resetCurrentTag (s : AggState) (now : Nat) : AggState :=
  let s2 := if s.reader then
    { s with current := none, notes := s.notes ++ [AggNote.currentTagChanged] }
  else s
  { s2 with watchdogStart := now }

/-- Model of `RFID::clearHistory`: clear `m_tags`, reset the current tag, emit
`tagCountChanged`. -/
def clearHistory (s : AggState) (now : Nat) : AggState :=
  let s2 := resetCurrentTag { s with history := [] } now
  { s2 with notes := s2.notes ++ [AggNote.tagCountChanged] }

/-! ### Claim C7: no duplicate non-empty TIDs in the history -/

/-- A 13-operation reachable trace, starting from the initial aggregator
state, after which the invariant fails.  The decisive final event merges
the current in-list record `C` (epc `[4]`, tid just set to `[2]`) into the
earlier record `A` by epc equality, setting `A.tid := [2]` while record
`E` also holds tid `[2]`; the deduplication sweep then removes `E` at
inner index `j = 1` but — because `removeAt(j)` is followed by `j++` —
skips the record that shifted into its place, leaving `A` and `C` both in
the history with tid `[2]`. -/
def c7State : AggState :=
  let s := initAgg
  let s := onTidFound s 0 [1]
  let s := resetCurrentTag s 0
  let s := onEpcFound s 0 [3]
  let s := onTidFound s 0 [2]
  let s := resetCurrentTag s 0
  let s := onTidFound s 0 [1]
  let s := onEpcFound s 0 [4]
  let s := onRfuFound s 0 [5]
  let s := resetCurrentTag s 0
  let s := onRfuFound s 0 [6]
  let s := onEpcFound s 0 [4]
  let s := onTidFound s 0 [2]
  s

/-- C7 — evaluating the aggregator on the trace of `c7State`: afterwards
the history holds the two distinct records 0 and 3, and both carry the
same non-empty tid `[2]` — the claimed invariant is violated by the
code. -/
theorem aggregator_duplicate_tid_bug :
    c7State.history = [0, 3] ∧
    (heapTag c7State 0).tid = [2] ∧
    (heapTag c7State 3).tid = [2] ∧
    ([2] : List Nat) ≠ [] ∧
    (0 : Nat) ≠ 3 := by
  refine ⟨by decide, by decide, by decide, by decide, by decide⟩

/-! ### Claim C8: the current-tag watchdog -/

/-- C8, counterexample — an EPC bank event that merely refines the current
tag's epc does not re-arm the watchdog: after a tag becomes current at
time 0, an `epcFound` event at time 500 leaves the watchdog armed at 0,
not 500, contradicting "each bank event re-arms the watchdog". -/
theorem watchdog_rearm_counterexample :
    (onEpcFound (onTidFound initAgg 0 [1]) 500 [2]).watchdogStart = 0 ∧
    (0 : Nat) ≠ 500 := by
  refine ⟨by decide, by decide⟩

theorem updateTagList_watchdogStart (s : AggState) (now t : Nat) :
    (updateTagList s now t).watchdogStart = now := rfl

theorem onTidFound_watchdogStart (s : AggState) (now : Nat) (a : List Nat) :
    (onTidFound s now a).watchdogStart = now := by
  unfold onTidFound
  split <;> dsimp only <;> (try split) <;> rfl

theorem onRfuFound_watchdogStart (s : AggState) (now : Nat) (a : List Nat) :
    (onRfuFound s now a).watchdogStart = now := by
  unfold onRfuFound
  split <;> dsimp only <;> (try split) <;> rfl

theorem onUsrFound_watchdogStart (s : AggState) (now : Nat) (a : List Nat) (d : Nat) :
    (onUsrFound s now a d).watchdogStart = now := by
  unfold onUsrFound
  split <;> dsimp only <;> (try split) <;> rfl

/-- C8, amended — with a reader present, the watchdog expiry
(`resetCurrentTag`) sets the current tag to none, notifies
`currentTagChanged`, re-arms the watchdog, and leaves the history and
every record untouched; the watchdog is re-armed by every tid, rfu and
usr bank event and by every epc event that goes through the history-merge
step (`updateTagList`) — but not by an epc event that merely refines the
current tag's epc (see the counterexample). -/
theorem watchdog_expiry_amended :
    (∀ (s : AggState) (now : Nat), s.reader = true →
      (resetCurrentTag s now).current = none ∧
      (resetCurrentTag s now).history = s.history ∧
      (resetCurrentTag s now).heap = s.heap ∧
      (resetCurrentTag s now).watchdogStart = now ∧
      AggNote.currentTagChanged ∈ (resetCurrentTag s now).notes) ∧
    (∀ (s : AggState) (now t : Nat), (updateTagList s now t).watchdogStart = now) ∧
    (∀ (s : AggState) (now : Nat) (a : List Nat),
      (onTidFound s now a).watchdogStart = now) ∧
    (∀ (s : AggState) (now : Nat) (a : List Nat),
      (onRfuFound s now a).watchdogStart = now) ∧
    (∀ (s : AggState) (now : Nat) (a : List Nat) (d : Nat),
      (onUsrFound s now a d).watchdogStart = now) := by
  refine ⟨fun s now hr => ?_, updateTagList_watchdogStart, onTidFound_watchdogStart,
    onRfuFound_watchdogStart, onUsrFound_watchdogStart⟩
  unfold resetCurrentTag
  rw [hr]
  simp

/-- Witness for the amended C8: a tag becomes current via a bank event at
time 0; the expiry at time `RFID_CURRENT_TAG_TIMEOUT` clears the current
tag, notifies, re-arms, and keeps the history and the tag's record. -/
theorem watchdog_expiry_amended_witness :
    (resetCurrentTag (onTidFound initAgg 0 [1]) RFID_CURRENT_TAG_TIMEOUT).current = none ∧
    (resetCurrentTag (onTidFound initAgg 0 [1]) RFID_CURRENT_TAG_TIMEOUT).history
      = (onTidFound initAgg 0 [1]).history ∧
    (resetCurrentTag (onTidFound initAgg 0 [1]) RFID_CURRENT_TAG_TIMEOUT).heap
      = (onTidFound initAgg 0 [1]).heap ∧
    (resetCurrentTag (onTidFound initAgg 0 [1]) RFID_CURRENT_TAG_TIMEOUT).watchdogStart
      = RFID_CURRENT_TAG_TIMEOUT ∧
    AggNote.currentTagChanged
      ∈ (resetCurrentTag (onTidFound initAgg 0 [1]) RFID_CURRENT_TAG_TIMEOUT).notes :=
  watchdog_expiry_amended.1 (onTidFound initAgg 0 [1]) RFID_CURRENT_TAG_TIMEOUT (by decide)

end RFIDM

